import Mathlib

/-
Verification development for the hotel-booking chatbot repository.
The repository has four Python variants of the same design:
  app.py                    : Streamlit app, SQLite user_profiles table, summarization
                              strategy, retry gateway, room-type fallback.
  hotel_booking_chatbot.py  : flat-file JSON long-term memory, heuristic strategy,
                              no corruption handling.
  hotel_booking_chatbot2.py : flat-file JSON long-term memory with corruption
                              recovery, heuristic strategy, last-3 context window.
  hotel_booking_chatbot3.py : SQLite Users/Memory tables, preference rows and
                              deduplicated history rows, last-3 context window.
Python strings are modelled as Lean String / List Char; Python dicts keyed by
strings are modelled as association lists with in-place update (Python dicts
preserve insertion order, so an association list is an exact model).
-/

/-- Python substring scan: pat occurs somewhere in s (the Python operator in).
Implemented over character lists. -/
def isPrefixList : List Char → List Char → Bool
  | [], _ => true
  | _ :: _, [] => false
  | a :: as, b :: bs => a == b && isPrefixList as bs

def subListOf (pat : List Char) : List Char → Bool
  | [] => pat.isEmpty
  | c :: rest => isPrefixList pat (c :: rest) || subListOf pat rest

def strContains (s pat : String) : Bool := subListOf pat.data s.data

/-- Python str.lower (ASCII case folding, the only case used by the sources). -/
def pyLower (s : String) : String := String.mk (s.data.map Char.toLower)

/-- Python str.capitalize: first character upper-cased, all remaining characters
lower-cased.  Note this is NOT title-casing: "queen bed".capitalize() is
"Queen bed". -/
def pyCapitalize (s : String) : String :=
  match s.data with
  | [] => ""
  | c :: rest => String.mk (Char.toUpper c :: rest.map Char.toLower)

/-- Python str.replace on character lists: replace every non-overlapping
occurrence of pat by rep, scanning left to right.  Structural recursion on a
fuel argument (each step consumes at least one character, so fuel equal to the
length of the scanned list suffices).  The sources only ever call replace with
a non-empty pattern; for an empty pattern this model is the identity. -/
def pyReplaceAux (pat rep : List Char) : Nat → List Char → List Char
  | 0, s => s
  | _ + 1, [] => []
  | fuel + 1, c :: rest =>
    if isPrefixList pat (c :: rest) && !pat.isEmpty then
      rep ++ pyReplaceAux pat rep fuel (rest.drop (pat.length - 1))
    else
      c :: pyReplaceAux pat rep fuel rest

def pyReplaceList (pat rep s : List Char) : List Char :=
  pyReplaceAux pat rep s.length s

def strReplace (s pat rep : String) : String :=
  String.mk (pyReplaceList pat.data rep.data s.data)

/-! ## Capability Gateway (app.py lines 31-40, call_llm_with_retry)

    def call_llm_with_retry(runnable, messages, config, max_retries=3):
        for attempt in range(max_retries):
            try:
                return runnable.invoke(messages, config=config)
            except Exception as e:
                if "rate_limit" in str(e).lower():
                    sleep(2 ** attempt)
                else:
                    raise e
        raise Exception("Max retries exceeded")

The underlying capability is modelled as a sequence of outcomes, one per
invocation: outcome k is what runnable.invoke returns or raises on the
(0-indexed) k-th call.  The gateway result is the triple
(number of invocations made, list of sleep durations in order, final result),
where the final result is Except.error for a raised exception. -/

inductive LLMOutcome where
  | ok (content : String)
  | err (msg : String)
deriving DecidableEq, Repr

/-- Transient-failure test from app.py line 36: "rate_limit" in str(e).lower(). -/
def isTransient (msg : String) : Bool := strContains (pyLower msg) "rate_limit"

def retryGo (outcomes : Nat → LLMOutcome) : Nat → Nat → Nat × List Nat × Except String String
  | 0, attempt => (attempt, [], Except.error "Max retries exceeded")
  | fuel + 1, attempt =>
    match outcomes attempt with
    | LLMOutcome.ok c => (attempt + 1, [], Except.ok c)
    | LLMOutcome.err e =>
      if isTransient e then
        let r := retryGo outcomes fuel (attempt + 1)
        (r.1, 2 ^ attempt :: r.2.1, r.2.2)
      else
        (attempt + 1, [], Except.error e)

def call_llm_with_retry (outcomes : Nat → LLMOutcome) (max_retries : Nat := 3) :
    Nat × List Nat × Except String String :=
  retryGo outcomes max_retries 0

/-! ## Room-type fallback (app.py lines 51-57 and 153-156)

    def parse_room_type(history_str):
        history_lower = history_str.lower()
        room_types = ["king bed", "double bed", "queen bed", "suite", "single bed"]
        for room in room_types:
            if room in history_lower:
                return room.capitalize()
        return "Not Specified"

    if "Room Type: Not Specified" in summary:
        room_type = parse_room_type(history_str)
        summary = summary.replace("Room Type: Not Specified", f"Room Type: ...")
-/

def roomTypes : List String := ["king bed", "double bed", "queen bed", "suite", "single bed"]

def parse_room_type (history_str : String) : String :=
  let history_lower := pyLower history_str
  match roomTypes.find? (fun room => strContains history_lower room) with
  | some room => pyCapitalize room
  | none => "Not Specified"

/-- The module-level fallback rewrite, app.py lines 153-156. -/
def applyRoomTypeFallback (summary history_str : String) : String :=
  if strContains summary "Room Type: Not Specified" then
    strReplace summary "Room Type: Not Specified"
      ("Room Type: " ++ parse_room_type history_str)
  else
    summary

/-! ## Long-term memory data model (all variants)

History entries are the Python dicts
  {"user_input": prompt, "assistant_response": response}
appended by each turn (chatbot.py line 96, chatbot2.py line 122,
chatbot3.py line 190).  json.dumps is a deterministic injective encoding of
such a dict, so rows that the SQLite variant stores as serialized JSON are
modelled as holding the record itself; string equality of the serialized
forms coincides with equality of the records. -/

structure InteractionRecord where
  user_input : String
  assistant_response : String
deriving DecidableEq, Repr

structure MemoryData where
  preferences : List (String × String)
  history : List InteractionRecord
deriving DecidableEq, Repr

def emptyMemory : MemoryData := ⟨[], []⟩

/-- Python dict assignment d[k] = v on an insertion-ordered dict: replace the
value in place if the key is present, else append the new pair. -/
def dictInsert {α : Type} : List (String × α) → String → α → List (String × α)
  | [], k, v => [(k, v)]
  | (k0, v0) :: rest, k, v =>
    if k0 = k then (k0, v) :: rest else (k0, v0) :: dictInsert rest k v

/-- Python dict lookup d.get(k). -/
def alookup {α : Type} : List (String × α) → String → Option α
  | [], _ => none
  | (k0, v0) :: rest, k => if k0 = k then some v0 else alookup rest k

/-! ## Flat-file store, hotel_booking_chatbot2.py lines 19-46

The JSON file on disk is modelled by its parse outcome:
  absent   : os.path.exists(MEMORY_FILE) is false;
  corrupt  : the file holds malformed text, json.loads raises
             JSONDecodeError/ValueError;
  blank    : the file content strips to the empty string;
  ok data  : the file parses to a JSON object mapping user ids to
             {preferences, history} records (the only shape this program
             ever writes).
-/

inductive FileState where
  | absent
  | corrupt
  | blank
  | ok (data : List (String × MemoryData))
deriving DecidableEq, Repr

namespace Chatbot2

/-- hotel_booking_chatbot2.py lines 19-31. -/
def load_long_term_memory (fs : FileState) (user_id : String) : MemoryData :=
  match fs with
  | FileState.absent => emptyMemory
  | FileState.corrupt => emptyMemory
  | FileState.blank => emptyMemory
  | FileState.ok data => (alookup data user_id).getD emptyMemory

/-- hotel_booking_chatbot2.py lines 33-46: read the whole document (treating a
corrupt or blank file as the empty document), set data[user_id] = memory_data,
and rewrite the whole file. -/
def save_long_term_memory (fs : FileState) (user_id : String) (memory_data : MemoryData) :
    FileState :=
  match fs with
  | FileState.absent => FileState.ok (dictInsert [] user_id memory_data)
  | FileState.corrupt => FileState.ok (dictInsert [] user_id memory_data)
  | FileState.blank => FileState.ok (dictInsert [] user_id memory_data)
  | FileState.ok data => FileState.ok (dictInsert data user_id memory_data)

end Chatbot2

/-- The per-user entry actually present in the persisted document (none when
the document is absent, blank, or unparseable, or has no entry for the user). -/
def fsEntry (fs : FileState) (user_id : String) : Option MemoryData :=
  match fs with
  | FileState.ok data => alookup data user_id
  | _ => none

namespace Chatbot1

/-- hotel_booking_chatbot.py lines 27-36: same wholesale rewrite, but the read
of the existing file is not guarded by try/except, so a corrupt (or blank,
since json.load of an empty file also raises) existing file makes the save
itself raise JSONDecodeError, leaving the file untouched. -/
def save_long_term_memory (fs : FileState) (user_id : String) (memory_data : MemoryData) :
    Except String FileState :=
  match fs with
  | FileState.absent => Except.ok (FileState.ok (dictInsert [] user_id memory_data))
  | FileState.corrupt => Except.error "JSONDecodeError"
  | FileState.blank => Except.error "JSONDecodeError"
  | FileState.ok data => Except.ok (FileState.ok (dictInsert data user_id memory_data))

end Chatbot1

/-! ## Heuristic consolidation, hotel_booking_chatbot2.py lines 121-127

    long_term_data["history"].append({"user_input": prompt, "assistant_response": response})
    if "budget" in prompt.lower():
        long_term_data["preferences"]["budget"] = prompt
    if "location" in prompt.lower() or "city" in prompt.lower():
        long_term_data["preferences"]["location"] = prompt
-/

def heuristicUpdate (m : MemoryData) (prompt response : String) : MemoryData :=
  let m1 : MemoryData := ⟨m.preferences, m.history ++ [⟨prompt, response⟩]⟩
  let m2 : MemoryData :=
    if strContains (pyLower prompt) "budget" then
      ⟨dictInsert m1.preferences "budget" prompt, m1.history⟩
    else m1
  if strContains (pyLower prompt) "location" || strContains (pyLower prompt) "city" then
    ⟨dictInsert m2.preferences "location" prompt, m2.history⟩
  else m2

/-! ## Context Composer, hotel_booking_chatbot2.py lines 80-95 and
hotel_booking_chatbot3.py lines 148-163 (identical code in both variants). -/

def prefSection (preferences : List (String × String)) : String :=
  if preferences.isEmpty then "None available"
  else "\n- " ++ String.intercalate "\n- "
    (preferences.map (fun kv => kv.1 ++ ": " ++ kv.2))

def histSection (history : List InteractionRecord) : String :=
  if history.isEmpty then "None available"
  else
    let recent_history := history.drop (history.length - 3)
    "\n- " ++ String.intercalate "\n- "
      (recent_history.map (fun item =>
        "User: " ++ item.user_input ++ " | Assistant: " ++ item.assistant_response))

def composeLongTermContext (preferences : List (String × String))
    (history : List InteractionRecord) : String :=
  "Stored Preferences:\n" ++ prefSection preferences ++
  "\n\nRecent Past Interactions:\n" ++ histSection history

/-! ## SQLite store, hotel_booking_chatbot3.py lines 19-111

The Memory table has columns (id autoincrement, user_id, data_type, key,
value, timestamp).  id is the only uniqueness constraint and is never supplied
by the program, so INSERT OR REPLACE never hits a conflict and always inserts
a fresh row; the table is modelled as the insertion-ordered list of its rows
(a full table scan without ORDER BY yields rowid order).  The value column
holds either a preference string or a serialized interaction record; as
json.dumps is injective it is modelled by the decoded value.  The timestamp
column (wall clock) plays no role in any load and is not modelled. -/

inductive RowValue where
  | pref (s : String)
  | hist (r : InteractionRecord)
deriving DecidableEq, Repr

structure MemoryRow where
  user_id : String
  data_type : String
  key : String
  value : RowValue
deriving DecidableEq, Repr

structure DB3 where
  users : List String
  rows : List MemoryRow
deriving DecidableEq, Repr

namespace Chatbot3

/-- INSERT OR IGNORE INTO Users (user_id is the primary key). -/
def insertOrIgnoreUser (users : List String) (user_id : String) : List String :=
  if user_id ∈ users then users else users ++ [user_id]

/-- One step of the row loop in load_long_term_memory (lines 67-75): a
preference row assigns preferences[key] = value; a history row whose value
deserializes to an interaction record is appended to history (the except
branch skips a value that is not a record; a record-shaped value in a
preference row never occurs in rows this program writes). -/
def applyRow (acc : List (String × String) × List InteractionRecord) (row : MemoryRow) :
    List (String × String) × List InteractionRecord :=
  if row.data_type = "preference" then
    match row.value with
    | RowValue.pref v => (dictInsert acc.1 row.key v, acc.2)
    | RowValue.hist _ => acc
  else if row.data_type = "history" then
    match row.value with
    | RowValue.hist r => (acc.1, acc.2 ++ [r])
    | RowValue.pref _ => acc
  else acc

/-- hotel_booking_chatbot3.py lines 50-78.  Returns the updated database
(the INSERT OR IGNORE into Users commits) together with the structured
memory built from the rows of this user in insertion order. -/
def load_long_term_memory (db : DB3) (user_id : String) : DB3 × MemoryData :=
  let db' : DB3 := ⟨insertOrIgnoreUser db.users user_id, db.rows⟩
  let rows := db.rows.filter (fun r => r.user_id = user_id)
  let acc := rows.foldl applyRow ([], [])
  (db', ⟨acc.1, acc.2⟩)

/-- The duplicate check of lines 100-104: SELECT id FROM Memory WHERE
user_id = ? AND data_type = ? AND value = ? with data_type "history". -/
def hasHistRow (rows : List MemoryRow) (user_id : String) (e : InteractionRecord) : Bool :=
  rows.any (fun r =>
    r.user_id == user_id && r.data_type == "history" && r.value == RowValue.hist e)

/-- One step of the history loop in save_long_term_memory (lines 97-108):
insert the serialized entry only when no identical row is present.  Every
entry inserted by one save call gets the same synthetic key
"interaction_{len(memory_data['history'])}" (the code uses the total length,
not the entry index). -/
def insertHistEntry (user_id : String) (n : Nat) (rows : List MemoryRow)
    (e : InteractionRecord) : List MemoryRow :=
  if hasHistRow rows user_id e then rows
  else rows ++ [⟨user_id, "history", "interaction_" ++ toString n, RowValue.hist e⟩]

/-- hotel_booking_chatbot3.py lines 80-111.  The preference loop (lines 90-94)
runs INSERT OR REPLACE, which here always appends a fresh row (see the model
note above); the history loop deduplicates by full value equality. -/
def save_long_term_memory (db : DB3) (user_id : String) (memory_data : MemoryData) : DB3 :=
  let users := insertOrIgnoreUser db.users user_id
  let rows1 := memory_data.preferences.foldl
    (fun acc kv => acc ++ [⟨user_id, "preference", kv.1, RowValue.pref kv.2⟩]) db.rows
  let rows2 := memory_data.history.foldl
    (insertHistEntry user_id memory_data.history.length) rows1
  ⟨users, rows2⟩

end Chatbot3

/-! ## The app.py turn (lines 113-169)

One completed turn of the Streamlit app, for a fixed user.  State threaded
through the turn:
  db    : the user_profiles table, modelled as the insertion-ordered list of
          (user_id, preferences-text) rows — the schema at lines 20-24 has no
          other data column;
  msgs  : st.session_state.messages, the conversation log shown in the UI;
  sess  : the per-session langchain history used to build history_str
          (lines 129-130); the RunnableWithMessageHistory wrapper records the
          human/ai exchange only after a successful generation.
External capability outcomes are parameters: gen gives the outcome of each
generation attempt inside call_llm_with_retry; summaryOut is the outcome of
the single unguarded summary_llm.invoke at line 150 (there is no retry and no
try/except around it).  The result is the post-turn state of the three stores
plus the exception, if any, that escapes the turn. -/

/-- session.query(UserProfile).filter_by(user_id=uid).first() then either
update that row in place or add a new row (app.py lines 161-167). -/
def upsertProfile (db : List (String × String)) (user_id preferences : String) :
    List (String × String) :=
  match db with
  | [] => [(user_id, preferences)]
  | (u, p) :: rest =>
    if u = user_id then (u, preferences) :: rest
    else (u, p) :: upsertProfile rest user_id preferences

/-- history_str at line 130: newline-joined "{msg.type}: {msg.content}". -/
def renderHistory (sess : List (String × String)) : String :=
  String.intercalate "\n" (sess.map (fun m => m.1 ++ ": " ++ m.2))

structure TurnResult where
  db : List (String × String)
  msgs : List (String × String)
  sess : List (String × String)
  raised : Option String
deriving DecidableEq, Repr

def appTurn (db : List (String × String)) (msgs sess : List (String × String))
    (user_id user_input : String) (gen : Nat → LLMOutcome)
    (summaryOut : Except String String) : TurnResult :=
  let msgs1 := msgs ++ [("user", user_input)]
  match (call_llm_with_retry gen).2.2 with
  | Except.error e => ⟨db, msgs1, sess, some e⟩
  | Except.ok response =>
    let msgs2 := msgs1 ++ [("assistant", response)]
    let sess2 := sess ++ [("human", user_input), ("ai", response)]
    match summaryOut with
    | Except.error e => ⟨db, msgs2, sess2, some e⟩
    | Except.ok summaryRaw =>
      let summary := applyRoomTypeFallback summaryRaw (renderHistory sess2)
      ⟨upsertProfile db user_id summary, msgs2, sess2, none⟩

/-- The interaction records held in the app.py long-term store for a user.
The user_profiles schema (app.py lines 20-24) has a single data column,
preferences (a summary text); it stores no interaction records at all, so the
history recoverable from it is empty for every database state and user. -/
def appInteractionRecords (_db : List (String × String)) (_user_id : String) :
    List InteractionRecord := []

/-! ## Concrete inputs used by witnesses and counterexamples -/

/-- Capability that fails transiently twice, then succeeds. -/
def genTTS : Nat → LLMOutcome := fun n =>
  if n = 0 then LLMOutcome.err "HTTP 429 RATE_LIMIT"
  else if n = 1 then LLMOutcome.err "rate_limit again"
  else LLMOutcome.ok "hello"

/-- Capability that always fails with a non-transient description. -/
def genFatal : Nat → LLMOutcome := fun _ => LLMOutcome.err "connection refused"

/-- Capability that always fails transiently. -/
def genAllTransient : Nat → LLMOutcome := fun _ => LLMOutcome.err "rate_limit"

/-- Capability that always succeeds. -/
def genOk : Nat → LLMOutcome := fun _ => LLMOutcome.ok "Sure, I can help with hotels."

def exampleHistory : String := "I\x27d like a queen bed please"

def exampleSummary : String :=
  "Name: John, Location: Paris, Room Type: Not Specified, Other: Pool"

def noRoomHistory : String := "I am John and I want a hotel in London"

def rec1 : InteractionRecord := ⟨"hi", "hello"⟩
def rec2 : InteractionRecord := ⟨"budget 100", "noted"⟩
def rec3 : InteractionRecord := ⟨"city Rome", "ok"⟩
def rec4 : InteractionRecord := ⟨"queen bed please", "sure"⟩

def samplePrefs : List (String × String) := [("location", "Paris")]
def sampleHistory4 : List InteractionRecord := [rec1, rec2, rec3, rec4]
def sampleMemory : MemoryData := ⟨[("location", "Paris")], [rec1]⟩

/-! ## Helper lemmas -/

theorem isPrefixList_append_drop :
    ∀ (pat l : List Char), isPrefixList pat l = true → pat ++ l.drop pat.length = l := by
  intro pat
  induction pat with
  | nil => intro l _; simp
  | cons a as ih =>
    intro l hp
    cases l with
    | nil => simp [isPrefixList] at hp
    | cons b bs =>
      simp only [isPrefixList, Bool.and_eq_true, beq_iff_eq] at hp
      obtain ⟨rfl, hp2⟩ := hp
      simpa [List.length_cons, List.drop_succ_cons] using congrArg (a :: ·) (ih bs hp2)

theorem pyReplaceAux_self (pat : List Char) :
    ∀ (fuel : Nat) (s : List Char), pyReplaceAux pat pat fuel s = s := by
  intro fuel
  induction fuel with
  | zero => intro s; rfl
  | succ n ih =>
    intro s
    cases s with
    | nil => rfl
    | cons c rest =>
      by_cases hp : isPrefixList pat (c :: rest) = true ∧ pat ≠ []
      · obtain ⟨hp1, hp2⟩ := hp
        have hne : pat.isEmpty = false := by
          cases pat with
          | nil => exact absurd rfl hp2
          | cons x xs => rfl
        have hlen : ∃ k, pat.length = k + 1 := by
          cases pat with
          | nil => exact absurd rfl hp2
          | cons x xs => exact ⟨xs.length, rfl⟩
        obtain ⟨k, hk⟩ := hlen
        have hdrop : (c :: rest).drop pat.length = rest.drop (pat.length - 1) := by
          rw [hk]; simp [List.drop_succ_cons]
        calc pyReplaceAux pat pat (n + 1) (c :: rest)
            = pat ++ pyReplaceAux pat pat n (rest.drop (pat.length - 1)) := by
              simp [pyReplaceAux, hp1, hne]
          _ = pat ++ rest.drop (pat.length - 1) := by rw [ih]
          _ = pat ++ (c :: rest).drop pat.length := by rw [hdrop]
          _ = c :: rest := isPrefixList_append_drop pat (c :: rest) hp1
      · have hcond : (isPrefixList pat (c :: rest) && !pat.isEmpty) = false := by
          cases h1 : isPrefixList pat (c :: rest) with
          | false => simp
          | true =>
            have hpe : pat = [] := by
              by_contra hne
              exact hp ⟨h1, hne⟩
            simp [hpe]
        simp [pyReplaceAux, hcond, ih rest]

theorem strReplace_self (s pat : String) : strReplace s pat pat = s := by
  simp [strReplace, pyReplaceList, pyReplaceAux_self]

theorem alookup_dictInsert_self {α : Type} (l : List (String × α)) (k : String) (v : α) :
    alookup (dictInsert l k v) k = some v := by
  induction l with
  | nil => simp [dictInsert, alookup]
  | cons p rest ih =>
    obtain ⟨k0, v0⟩ := p
    by_cases h : k0 = k
    · simp [dictInsert, alookup, h]
    · simp [dictInsert, alookup, h, ih]

theorem alookup_dictInsert_ne {α : Type} (l : List (String × α)) (k : String) (v : α)
    (k' : String) (h : k' ≠ k) : alookup (dictInsert l k v) k' = alookup l k' := by
  have hkk : ¬(k = k') := fun he => h he.symm
  induction l with
  | nil =>
    simp [dictInsert, alookup, hkk]
  | cons p rest ih =>
    obtain ⟨k0, v0⟩ := p
    by_cases h0 : k0 = k
    · subst h0
      simp [dictInsert, alookup, hkk]
    · by_cases h1 : k0 = k'
      · simp [dictInsert, alookup, h0, h1, h]
      · simp [dictInsert, alookup, h0, h1, ih]

theorem dictInsert_keys {α : Type} (l : List (String × α)) (k : String) (v : α) :
    (dictInsert l k v).map Prod.fst =
      if k ∈ l.map Prod.fst then l.map Prod.fst else l.map Prod.fst ++ [k] := by
  induction l with
  | nil => simp [dictInsert]
  | cons p rest ih =>
    obtain ⟨k0, v0⟩ := p
    by_cases h : k0 = k
    · simp [dictInsert, h]
    · have hne : ¬(k = k0) := fun he => h he.symm
      by_cases hm : k ∈ rest.map Prod.fst
      · simp [dictInsert, h, ih, hm, hne]
      · simp [dictInsert, h, ih, hm, hne]

theorem dictInsert_keys_nodup {α : Type} (l : List (String × α)) (k : String) (v : α)
    (h : (l.map Prod.fst).Nodup) : ((dictInsert l k v).map Prod.fst).Nodup := by
  rw [dictInsert_keys]
  by_cases hm : k ∈ l.map Prod.fst
  · simpa [hm] using h
  · simp only [hm, if_false]
    refine List.nodup_append.mpr ⟨h, List.nodup_singleton k, ?_⟩
    intro a ha hb
    simp only [List.mem_singleton] at hb
    subst hb
    exact hm ha

theorem heuristicUpdate_history (m : MemoryData) (p r : String) :
    (heuristicUpdate m p r).history = m.history ++ [⟨p, r⟩] := by
  unfold heuristicUpdate
  by_cases h1 : strContains (pyLower p) "budget" = true <;>
    by_cases h2 : (strContains (pyLower p) "location" || strContains (pyLower p) "city") = true <;>
    simp [h1, h2]

theorem load2_save2_self (fs : FileState) (uid : String) (m : MemoryData) :
    Chatbot2.load_long_term_memory (Chatbot2.save_long_term_memory fs uid m) uid = m := by
  cases fs <;>
    simp [Chatbot2.load_long_term_memory, Chatbot2.save_long_term_memory,
      alookup_dictInsert_self]

theorem foldl_append_singleton {α β : Type} (f : α → β) :
    ∀ (l : List α) (rows : List β),
      l.foldl (fun acc x => acc ++ [f x]) rows = rows ++ l.map f := by
  intro l
  induction l with
  | nil => intro rows; simp
  | cons x xs ih => intro rows; simp [ih]

theorem hasHistRow_append (rows extra : List MemoryRow) (uid : String) (e : InteractionRecord)
    (h : Chatbot3.hasHistRow rows uid e = true) :
    Chatbot3.hasHistRow (rows ++ extra) uid e = true := by
  unfold Chatbot3.hasHistRow at h ⊢
  rw [List.any_append, h]
  simp

theorem hasHistRow_insertHistEntry_self (rows : List MemoryRow) (uid : String) (n : Nat)
    (e : InteractionRecord) :
    Chatbot3.hasHistRow (Chatbot3.insertHistEntry uid n rows e) uid e = true := by
  unfold Chatbot3.insertHistEntry
  by_cases h : Chatbot3.hasHistRow rows uid e = true
  · simp [h]
  · simp only [h, if_false, Bool.false_eq_true]
    unfold Chatbot3.hasHistRow
    rw [List.any_append]
    simp [Chatbot3.hasHistRow]

theorem hasHistRow_insertHistEntry_mono (rows : List MemoryRow) (uid : String) (n : Nat)
    (e2 e : InteractionRecord) (h : Chatbot3.hasHistRow rows uid e = true) :
    Chatbot3.hasHistRow (Chatbot3.insertHistEntry uid n rows e2) uid e = true := by
  unfold Chatbot3.insertHistEntry
  split
  · exact h
  · exact hasHistRow_append _ _ _ _ h

theorem hasHistRow_foldl_mono (uid : String) (n : Nat) (e : InteractionRecord) :
    ∀ (l : List InteractionRecord) (rows : List MemoryRow),
      Chatbot3.hasHistRow rows uid e = true →
      Chatbot3.hasHistRow (l.foldl (Chatbot3.insertHistEntry uid n) rows) uid e = true := by
  intro l
  induction l with
  | nil => intro rows h; exact h
  | cons x xs ih =>
    intro rows h
    exact ih _ (hasHistRow_insertHistEntry_mono rows uid n x e h)

theorem hasHistRow_after_fold (uid : String) (n : Nat) :
    ∀ (l : List InteractionRecord) (rows : List MemoryRow) (e : InteractionRecord),
      e ∈ l →
      Chatbot3.hasHistRow (l.foldl (Chatbot3.insertHistEntry uid n) rows) uid e = true := by
  intro l
  induction l with
  | nil => intro rows e he; simp at he
  | cons x xs ih =>
    intro rows e he
    rcases List.mem_cons.mp he with rfl | hmem
    · exact hasHistRow_foldl_mono uid n e xs _ (hasHistRow_insertHistEntry_self rows uid n e)
    · exact ih _ e hmem

theorem foldl_insertHistEntry_noop (uid : String) (n : Nat) :
    ∀ (l : List InteractionRecord) (rows : List MemoryRow),
      (∀ e ∈ l, Chatbot3.hasHistRow rows uid e = true) →
      l.foldl (Chatbot3.insertHistEntry uid n) rows = rows := by
  intro l
  induction l with
  | nil => intro rows _; rfl
  | cons x xs ih =>
    intro rows hall
    have hx := hall x (List.mem_cons_self x xs)
    have hstep : Chatbot3.insertHistEntry uid n rows x = rows := by
      unfold Chatbot3.insertHistEntry
      simp [hx]
    rw [List.foldl_cons, hstep]
    exact ih rows (fun e he => hall e (List.mem_cons_of_mem x he))

/-- The interaction record a Memory row contributes to a load, if any. -/
def rowHist (r : MemoryRow) : Option InteractionRecord :=
  if r.data_type = "history" then
    match r.value with
    | RowValue.hist e => some e
    | RowValue.pref _ => none
  else none

theorem applyRow_snd (acc : List (String × String) × List InteractionRecord) (r : MemoryRow) :
    (Chatbot3.applyRow acc r).2 = acc.2 ++ (rowHist r).toList := by
  have hph : ("preference" : String) ≠ "history" := by decide
  unfold Chatbot3.applyRow rowHist
  by_cases h1 : r.data_type = "preference"
  · have h2 : ¬(r.data_type = "history") := by rw [h1]; exact hph
    cases hv : r.value <;> simp [h1, h2, hv]
  · by_cases h2 : r.data_type = "history"
    · cases hv : r.value <;> simp [h1, h2, hv]
    · simp [h1, h2]

theorem foldl_applyRow_snd :
    ∀ (l : List MemoryRow) (acc : List (String × String) × List InteractionRecord),
      (l.foldl Chatbot3.applyRow acc).2 = acc.2 ++ l.filterMap rowHist := by
  intro l
  induction l with
  | nil => intro acc; simp
  | cons r rs ih =>
    intro acc
    rw [List.foldl_cons, ih, applyRow_snd]
    cases hrow : rowHist r <;> simp [List.filterMap_cons, hrow]

theorem applyRow_fst_nodup (acc : List (String × String) × List InteractionRecord)
    (r : MemoryRow) (h : (acc.1.map Prod.fst).Nodup) :
    ((Chatbot3.applyRow acc r).1.map Prod.fst).Nodup := by
  unfold Chatbot3.applyRow
  by_cases h1 : r.data_type = "preference"
  · cases hv : r.value
    · simpa [h1, hv] using dictInsert_keys_nodup acc.1 r.key _ h
    · simpa [h1, hv] using h
  · by_cases h2 : r.data_type = "history"
    · cases hv : r.value <;> simpa [h1, h2, hv] using h
    · simpa [h1, h2] using h

theorem foldl_applyRow_fst_nodup :
    ∀ (l : List MemoryRow) (acc : List (String × String) × List InteractionRecord),
      (acc.1.map Prod.fst).Nodup → ((l.foldl Chatbot3.applyRow acc).1.map Prod.fst).Nodup := by
  intro l
  induction l with
  | nil => intro acc h; exact h
  | cons r rs ih =>
    intro acc h
    rw [List.foldl_cons]
    exact ih _ (applyRow_fst_nodup acc r h)

/-! ## Claim theorems -/

/-- Claim C1: the Capability Gateway retries only failures whose description
contains the case-insensitive marker "rate_limit", sleeping 2^k time units
after the 0-indexed attempt k, with at most 3 attempts.  Two transient
failures followed by a success make exactly 3 calls (sleeping 1 then 2) and
return the success; a non-transient first failure makes exactly 1 call and
propagates unmodified; three transient failures make exactly 3 calls and end
in the terminal exhausted-retries exception ("Max retries exceeded" in the
code). -/
theorem gateway_retry_policy :
    (∀ (gen : Nat → LLMOutcome) (e1 e2 c : String),
        gen 0 = LLMOutcome.err e1 → gen 1 = LLMOutcome.err e2 → gen 2 = LLMOutcome.ok c →
        isTransient e1 = true → isTransient e2 = true →
        call_llm_with_retry gen = (3, [1, 2], Except.ok c))
  ∧ (∀ (gen : Nat → LLMOutcome) (e : String),
        gen 0 = LLMOutcome.err e → isTransient e = false →
        call_llm_with_retry gen = (1, [], Except.error e))
  ∧ (∀ (gen : Nat → LLMOutcome) (e0 e1 e2 : String),
        gen 0 = LLMOutcome.err e0 → gen 1 = LLMOutcome.err e1 → gen 2 = LLMOutcome.err e2 →
        isTransient e0 = true → isTransient e1 = true → isTransient e2 = true →
        call_llm_with_retry gen = (3, [1, 2, 4], Except.error "Max retries exceeded")) := by
  refine ⟨?_, ?_, ?_⟩
  · intro gen e1 e2 c h0 h1 h2 t1 t2
    simp [call_llm_with_retry, retryGo, h0, h1, h2, t1, t2]
  · intro gen e h0 t0
    simp [call_llm_with_retry, retryGo, h0, t0]
  · intro gen e0 e1 e2 h0 h1 h2 t0 t1 t2
    simp [call_llm_with_retry, retryGo, h0, h1, h2, t0, t1, t2]

/-- Witness for C1: the three scenarios at concrete capabilities. -/
theorem gateway_retry_policy_witness :
    call_llm_with_retry genTTS = (3, [1, 2], Except.ok "hello") ∧
    call_llm_with_retry genFatal = (1, [], Except.error "connection refused") ∧
    call_llm_with_retry genAllTransient
      = (3, [1, 2, 4], Except.error "Max retries exceeded") :=
  ⟨gateway_retry_policy.1 genTTS _ _ _ rfl rfl rfl (by decide) (by decide),
   gateway_retry_policy.2.1 genFatal _ rfl (by decide),
   gateway_retry_policy.2.2 genAllTransient _ _ _ rfl rfl rfl
     (by decide) (by decide) (by decide)⟩

/-- Claim C4: loading a user whose persisted record is malformed text yields a
memory with empty preferences and empty history; the parse failure is caught
inside load_long_term_memory (the function is total in the model) and never
reaches the caller. -/
theorem corrupt_load_recovers_empty (user_id : String) :
    Chatbot2.load_long_term_memory FileState.corrupt user_id = emptyMemory ∧
    (Chatbot2.load_long_term_memory FileState.corrupt user_id).preferences = [] ∧
    (Chatbot2.load_long_term_memory FileState.corrupt user_id).history = [] :=
  ⟨rfl, rfl, rfl⟩

/-- Claim C8: when the generation capability fails non-transiently on the
first call, the turn raises that failure unmodified, with the long-term store
untouched, no assistant message in the conversation log or the session
history, and no consolidation attempted (the summary outcome is irrelevant).
Only the user message, appended before the generation call, is present. -/
theorem nontransient_failure_no_partial_state
    (db msgs sess : List (String × String)) (uid input : String)
    (gen : Nat → LLMOutcome) (summaryOut : Except String String) (e : String)
    (hgen : gen 0 = LLMOutcome.err e) (ht : isTransient e = false) :
    appTurn db msgs sess uid input gen summaryOut
      = ⟨db, msgs ++ [("user", input)], sess, some e⟩ := by
  have hcall : (call_llm_with_retry gen).2.2 = Except.error e := by
    simp [call_llm_with_retry, retryGo, hgen, ht]
  simp [appTurn, hcall]

/-- Witness for C8 at a concrete turn. -/
theorem nontransient_failure_no_partial_state_witness :
    appTurn [("u1", "old")] [] [] "u1" "hi" genFatal (Except.ok "s")
      = ⟨[("u1", "old")], [("user", "hi")], [], some "connection refused"⟩ :=
  nontransient_failure_no_partial_state [("u1", "old")] [] [] "u1" "hi" genFatal
    (Except.ok "s") "connection refused" rfl (by decide)

/-- Claim C9: the Context Composer renders the literal sentinel
"None available" for an empty PreferenceSet; when the history holds more than
3 records the composed context equals the context composed from exactly the
last 3 records (so older records do not reach the composed text), and a
persist of the full memory retains every record in storage. -/
theorem context_composer_sections (p : List (String × String))
    (h : List InteractionRecord) (fs : FileState) (uid : String) (m : MemoryData) :
    prefSection [] = "None available" ∧
    (3 < h.length →
      composeLongTermContext p h = composeLongTermContext p (h.drop (h.length - 3)) ∧
      (h.drop (h.length - 3)).length = 3) ∧
    Chatbot2.load_long_term_memory (Chatbot2.save_long_term_memory fs uid m) uid = m := by
  refine ⟨rfl, ?_, load2_save2_self fs uid m⟩
  intro hlen
  have hlen3 : (h.drop (h.length - 3)).length = 3 := by
    simp only [List.length_drop]
    omega
  refine ⟨?_, hlen3⟩
  have hne : h.isEmpty = false := by
    cases h with
    | nil => simp at hlen
    | cons a l => rfl
  have hne2 : (h.drop (h.length - 3)).isEmpty = false := by
    cases hd : h.drop (h.length - 3) with
    | nil => rw [hd] at hlen3; simp at hlen3
    | cons a l => rfl
  have hhist : histSection h = histSection (h.drop (h.length - 3)) := by
    simp only [histSection, hne, hne2, Bool.false_eq_true, if_false, hlen3]
    simp
  unfold composeLongTermContext
  rw [hhist]

/-- Witness for C9 with a 4-record history. -/
theorem context_composer_sections_witness :
    composeLongTermContext samplePrefs sampleHistory4
        = composeLongTermContext samplePrefs
            (sampleHistory4.drop (sampleHistory4.length - 3)) ∧
    (sampleHistory4.drop (sampleHistory4.length - 3)).length = 3 :=
  (context_composer_sections samplePrefs sampleHistory4 FileState.absent "u1"
    sampleMemory).2.1 (by decide)

/-- Claim C10: saving for user u on the flat-file backend leaves the persisted
entry of every other user v unchanged, in both flat-file variants (in the
first variant, whose save can itself fail on a corrupt existing file, this
holds whenever the save succeeds; a failed save leaves the file untouched). -/
theorem save_frame_other_users (fs : FileState) (u v : String) (m : MemoryData)
    (h : v ≠ u) :
    fsEntry (Chatbot2.save_long_term_memory fs u m) v = fsEntry fs v ∧
    (∀ fs', Chatbot1.save_long_term_memory fs u m = Except.ok fs' →
        fsEntry fs' v = fsEntry fs v) := by
  constructor
  · cases fs <;>
      simp [fsEntry, Chatbot2.save_long_term_memory,
        alookup_dictInsert_ne _ _ _ _ h, alookup, Ne.symm h]
  · intro fs' hsave
    cases fs with
    | absent =>
      simp only [Chatbot1.save_long_term_memory, Except.ok.injEq] at hsave
      subst hsave
      simp [fsEntry, alookup_dictInsert_ne _ _ _ _ h, alookup, Ne.symm h]
    | corrupt => simp [Chatbot1.save_long_term_memory] at hsave
    | blank => simp [Chatbot1.save_long_term_memory] at hsave
    | ok data =>
      simp only [Chatbot1.save_long_term_memory, Except.ok.injEq] at hsave
      subst hsave
      simp [fsEntry, alookup_dictInsert_ne _ _ _ _ h]

/-- Witness for C10: saving for alice touches nothing of bob, in both
variants. -/
theorem save_frame_other_users_witness :
    fsEntry (Chatbot2.save_long_term_memory FileState.absent "alice" sampleMemory) "bob"
      = fsEntry FileState.absent "bob" ∧
    fsEntry (FileState.ok (dictInsert [] "alice" sampleMemory)) "bob"
      = fsEntry FileState.absent "bob" :=
  ⟨(save_frame_other_users FileState.absent "alice" "bob" sampleMemory (by decide)).1,
   (save_frame_other_users FileState.absent "alice" "bob" sampleMemory (by decide)).2
     _ rfl⟩

/-- Claim C5 (counterexample): under the summarization strategy (app.py), a
completed turn does NOT append an interaction record to the user's long-term
history — the user_profiles store holds no interaction records at all, so its
history length stays 0 instead of growing by 1. -/
theorem one_record_per_turn_counterexample :
    ¬ ((appInteractionRecords
          (appTurn [] [] [] "u1" "I need a suite in London" genOk
            (Except.ok "Name: John, Location: London, Room Type: Suite, Other: Has Pool")).db
          "u1").length
        = (appInteractionRecords ([] : List (String × String)) "u1").length + 1) := by
  decide

/-- Claim C5 (amended): the heuristic strategy appends exactly one new
InteractionRecord per completed turn, and the appended history is persisted as
written; the summarization-strategy variant persists only a preferences
summary text and appends no InteractionRecord to any long-term history. -/
theorem one_record_per_turn_amended :
    (∀ (m : MemoryData) (p r : String) (fs : FileState) (uid : String),
        (heuristicUpdate m p r).history.length = m.history.length + 1 ∧
        Chatbot2.load_long_term_memory
            (Chatbot2.save_long_term_memory fs uid (heuristicUpdate m p r)) uid
          = heuristicUpdate m p r)
  ∧ (∀ (db msgs sess : List (String × String)) (uid input : String)
        (gen : Nat → LLMOutcome) (summaryOut : Except String String),
        appInteractionRecords (appTurn db msgs sess uid input gen summaryOut).db uid
          = []) := by
  constructor
  · intro m p r fs uid
    refine ⟨?_, load2_save2_self fs uid _⟩
    rw [heuristicUpdate_history]
    simp
  · intro db msgs sess uid input gen summaryOut
    rfl

/-- Claim C6 (counterexample): with a successful generation, a failing
summarization call makes the whole turn raise (the failure reaches the user),
and a successful summarization with an unexpected format overwrites the
stored preferences with the raw output instead of retaining them. -/
theorem summary_failure_counterexample :
    (appTurn [("u1", "Location: Paris")] [] [] "u1" "hi" genOk
        (Except.error "LLM down")).raised ≠ none ∧
    (appTurn [("u1", "Location: Paris")] [] [] "u1" "hi" genOk
        (Except.ok "garbled output")).db ≠ [("u1", "Location: Paris")] := by
  constructor
  · decide
  · decide

/-- Claim C6 (amended): after a successful generation, a failing summarization
call leaves the stored preferences unchanged but propagates the failure (the
turn fails); a summarization result without the sentinel is stored verbatim
as the new preference summary, overwriting the prior one, and the turn
succeeds. -/
theorem summary_failure_amended (db msgs sess : List (String × String))
    (uid input : String) (gen : Nat → LLMOutcome) (c : String)
    (hgen : gen 0 = LLMOutcome.ok c) :
    (∀ e, appTurn db msgs sess uid input gen (Except.error e)
        = ⟨db, msgs ++ [("user", input), ("assistant", c)],
           sess ++ [("human", input), ("ai", c)], some e⟩)
  ∧ (∀ s, strContains s "Room Type: Not Specified" = false →
        appTurn db msgs sess uid input gen (Except.ok s)
        = ⟨upsertProfile db uid s, msgs ++ [("user", input), ("assistant", c)],
           sess ++ [("human", input), ("ai", c)], none⟩) := by
  have hcall : (call_llm_with_retry gen).2.2 = Except.ok c := by
    simp [call_llm_with_retry, retryGo, hgen]
  constructor
  · intro e
    simp [appTurn, hcall]
  · intro s hs
    simp [appTurn, hcall, applyRoomTypeFallback, hs]

/-- Witness for C6 (amended) at a concrete turn. -/
theorem summary_failure_amended_witness :
    appTurn [("u1", "old")] [] [] "u1" "hi" genOk (Except.error "LLM down")
      = ⟨[("u1", "old")],
         [("user", "hi"), ("assistant", "Sure, I can help with hotels.")],
         [("human", "hi"), ("ai", "Sure, I can help with hotels.")],
         some "LLM down"⟩ ∧
    appTurn [("u1", "old")] [] [] "u1" "hi" genOk (Except.ok "garbled output")
      = ⟨[("u1", "garbled output")],
         [("user", "hi"), ("assistant", "Sure, I can help with hotels.")],
         [("human", "hi"), ("ai", "Sure, I can help with hotels.")],
         none⟩ :=
  ⟨(summary_failure_amended [("u1", "old")] [] [] "u1" "hi" genOk
      "Sure, I can help with hotels." rfl).1 "LLM down",
   (summary_failure_amended [("u1", "old")] [] [] "u1" "hi" genOk
      "Sure, I can help with hotels." rfl).2 "garbled output" (by decide)⟩

/-- Claim C2 (counterexample): with history text "I\x27d like a queen bed
please" and a summary carrying the sentinel, the rewritten summary does NOT
contain "Room Type: Queen Bed" — Python str.capitalize upper-cases only the
first character, so the fallback writes "Room Type: Queen bed". -/
theorem room_type_fallback_counterexample :
    strContains exampleHistory "I\x27d like a queen bed please" = true ∧
    strContains exampleSummary "Room Type: Not Specified" = true ∧
    strContains (applyRoomTypeFallback exampleSummary exampleHistory)
      "Room Type: Queen Bed" = false ∧
    applyRoomTypeFallback exampleSummary exampleHistory
      = "Name: John, Location: Paris, Room Type: Queen bed, Other: Pool" := by
  refine ⟨by decide, by decide, by decide, by decide⟩

/-- Claim C2 (amended): the fallback scans the lower-cased history for the
phrases king bed, double bed, queen bed, suite, single bed in that priority
order and substitutes the first match with only its first character
upper-cased (Python capitalize) for the sentinel — so a history containing
"queen bed" (and no higher-priority phrase) rewrites the sentinel to
"Room Type: Queen bed", not "Room Type: Queen Bed"; if no phrase matches, the
sentinel is left unchanged. -/
theorem room_type_fallback_amended :
    (∀ h s : String,
        strContains s "Room Type: Not Specified" = true →
        strContains (pyLower h) "queen bed" = true →
        strContains (pyLower h) "king bed" = false →
        strContains (pyLower h) "double bed" = false →
        applyRoomTypeFallback s h
          = strReplace s "Room Type: Not Specified" "Room Type: Queen bed")
  ∧ (∀ h s : String,
        (∀ room ∈ roomTypes, strContains (pyLower h) room = false) →
        applyRoomTypeFallback s h = s) := by
  constructor
  · intro h s hs hq hk hd
    have hparse : parse_room_type h = "Queen bed" := by
      unfold parse_room_type roomTypes
      simp only [List.find?, hk, hd, hq]
      decide
    have happ : "Room Type: " ++ parse_room_type h = "Room Type: Queen bed" := by
      rw [hparse]; decide
    unfold applyRoomTypeFallback
    rw [happ]
    simp [hs]
  · intro h s hall
    have hk := hall "king bed" (by simp [roomTypes])
    have hd := hall "double bed" (by simp [roomTypes])
    have hq := hall "queen bed" (by simp [roomTypes])
    have hsu := hall "suite" (by simp [roomTypes])
    have hsi := hall "single bed" (by simp [roomTypes])
    have hparse : parse_room_type h = "Not Specified" := by
      unfold parse_room_type roomTypes
      simp only [List.find?, hk, hd, hq, hsu, hsi]
    have hcat : ("Room Type: " ++ parse_room_type h) = "Room Type: Not Specified" := by
      rw [hparse]; decide
    unfold applyRoomTypeFallback
    rw [hcat]
    by_cases hs : strContains s "Room Type: Not Specified" = true
    · simp [hs, strReplace_self]
    · simp [hs]

/-- Witness for C2 (amended): both branches at concrete inputs. -/
theorem room_type_fallback_amended_witness :
    applyRoomTypeFallback exampleSummary exampleHistory
        = strReplace exampleSummary "Room Type: Not Specified"
            "Room Type: Queen bed" ∧
    applyRoomTypeFallback exampleSummary noRoomHistory = exampleSummary :=
  ⟨room_type_fallback_amended.1 exampleHistory exampleSummary
      (by decide) (by decide) (by decide) (by decide),
   room_type_fallback_amended.2 noRoomHistory exampleSummary (by decide)⟩

theorem load3_history (d : DB3) (uid : String) :
    (Chatbot3.load_long_term_memory d uid).2.history
      = (d.rows.filter (fun r => r.user_id = uid)).filterMap rowHist := by
  show ((d.rows.filter (fun r => r.user_id = uid)).foldl Chatbot3.applyRow ([], [])).2 = _
  rw [foldl_applyRow_snd]
  simp

/-- Claim C3: saving the same memory twice for the same user leaves the
persisted history exactly as after the first save — the dedup check by
full-content equality of the serialized record skips every entry on the
second save, so no duplicate InteractionRecords are produced (only the
history is claimed; preference rows do accumulate). -/
theorem sqlite_save_idempotent_history (db : DB3) (uid : String) (m : MemoryData) :
    (Chatbot3.load_long_term_memory
        (Chatbot3.save_long_term_memory (Chatbot3.save_long_term_memory db uid m) uid m)
        uid).2.history
      = (Chatbot3.load_long_term_memory
          (Chatbot3.save_long_term_memory db uid m) uid).2.history ∧
    (Chatbot3.load_long_term_memory
        (Chatbot3.save_long_term_memory (Chatbot3.save_long_term_memory db uid m) uid m)
        uid).2.history.length
      = (Chatbot3.load_long_term_memory
          (Chatbot3.save_long_term_memory db uid m) uid).2.history.length := by
  have hpresent : ∀ e ∈ m.history,
      Chatbot3.hasHistRow (Chatbot3.save_long_term_memory db uid m).rows uid e = true := by
    intro e he
    show Chatbot3.hasHistRow
      (m.history.foldl (Chatbot3.insertHistEntry uid m.history.length)
        (m.preferences.foldl
          (fun acc kv => acc ++ [⟨uid, "preference", kv.1, RowValue.pref kv.2⟩]) db.rows))
      uid e = true
    exact hasHistRow_after_fold uid m.history.length m.history _ e he
  have hsnd : (Chatbot3.save_long_term_memory
        (Chatbot3.save_long_term_memory db uid m) uid m).rows
      = (Chatbot3.save_long_term_memory db uid m).rows ++ m.preferences.map
          (fun kv => (⟨uid, "preference", kv.1, RowValue.pref kv.2⟩ : MemoryRow)) := by
    show (m.history.foldl (Chatbot3.insertHistEntry uid m.history.length)
        (m.preferences.foldl
          (fun acc kv => acc ++ [⟨uid, "preference", kv.1, RowValue.pref kv.2⟩])
          (Chatbot3.save_long_term_memory db uid m).rows)) = _
    rw [foldl_append_singleton
      (fun kv : String × String => (⟨uid, "preference", kv.1, RowValue.pref kv.2⟩ : MemoryRow))]
    apply foldl_insertHistEntry_noop
    intro e he
    exact hasHistRow_append _ _ _ _ (hpresent e he)
  have key : (Chatbot3.load_long_term_memory
        (Chatbot3.save_long_term_memory (Chatbot3.save_long_term_memory db uid m) uid m)
        uid).2.history
      = (Chatbot3.load_long_term_memory
          (Chatbot3.save_long_term_memory db uid m) uid).2.history := by
    rw [load3_history, load3_history, hsnd, List.filter_append, List.filterMap_append]
    have hnil : ((m.preferences.map
        (fun kv => (⟨uid, "preference", kv.1, RowValue.pref kv.2⟩ : MemoryRow))).filter
          (fun r => r.user_id = uid)).filterMap rowHist = [] := by
      rw [List.filterMap_eq_nil_iff]
      intro r hr
      have hr2 := List.mem_of_mem_filter hr
      obtain ⟨kv, _, rfl⟩ := List.mem_map.mp hr2
      simp [rowHist]
    rw [hnil, List.append_nil]
  exact ⟨key, congrArg List.length key⟩

theorem applyRow_prefRow (acc : List (String × String) × List InteractionRecord)
    (u k v : String) :
    Chatbot3.applyRow acc ⟨u, "preference", k, RowValue.pref v⟩
      = (dictInsert acc.1 k v, acc.2) := by
  unfold Chatbot3.applyRow
  simp

/-- Claim C7: saving preference location=Paris and then location=Rome for the
same user yields location = Rome after reloading, and the keys of the
reloaded PreferenceSet are pairwise distinct (the reload folds the rows in
insertion order into a dict, so the last write wins per key). -/
theorem preference_last_write_wins (db : DB3) (uid : String) :
    alookup
      (Chatbot3.load_long_term_memory
        (Chatbot3.save_long_term_memory
          (Chatbot3.save_long_term_memory db uid ⟨[("location", "Paris")], []⟩)
          uid ⟨[("location", "Rome")], []⟩)
        uid).2.preferences "location" = some "Rome" ∧
    (((Chatbot3.load_long_term_memory
        (Chatbot3.save_long_term_memory
          (Chatbot3.save_long_term_memory db uid ⟨[("location", "Paris")], []⟩)
          uid ⟨[("location", "Rome")], []⟩)
        uid).2.preferences).map Prod.fst).Nodup := by
  have hload : ∀ (d : DB3), (Chatbot3.load_long_term_memory d uid).2.preferences
      = ((d.rows.filter (fun r => r.user_id = uid)).foldl Chatbot3.applyRow ([], [])).1 := by
    intro d
    rfl
  have hrows : (Chatbot3.save_long_term_memory
      (Chatbot3.save_long_term_memory db uid ⟨[("location", "Paris")], []⟩)
      uid ⟨[("location", "Rome")], []⟩).rows
    = db.rows ++ [⟨uid, "preference", "location", RowValue.pref "Paris"⟩,
                  ⟨uid, "preference", "location", RowValue.pref "Rome"⟩] := by
    show (db.rows ++ [(⟨uid, "preference", "location", RowValue.pref "Paris"⟩ : MemoryRow)])
        ++ [(⟨uid, "preference", "location", RowValue.pref "Rome"⟩ : MemoryRow)] = _
    simp
  have hfilter : (([⟨uid, "preference", "location", RowValue.pref "Paris"⟩,
      ⟨uid, "preference", "location", RowValue.pref "Rome"⟩] : List MemoryRow).filter
        (fun r => r.user_id = uid))
      = [⟨uid, "preference", "location", RowValue.pref "Paris"⟩,
         ⟨uid, "preference", "location", RowValue.pref "Rome"⟩] := by
    simp [List.filter]
  rw [hload, hrows, List.filter_append, hfilter, List.foldl_append]
  simp only [List.foldl_cons, List.foldl_nil]
  rw [applyRow_prefRow, applyRow_prefRow]
  constructor
  · exact alookup_dictInsert_self _ _ _
  · apply dictInsert_keys_nodup
    apply dictInsert_keys_nodup
    exact foldl_applyRow_fst_nodup _ _ (by simp)
